import Mathlib

/-!
Verification of the column-mapping CSV product importer
(`utils/csv_import.py`, class `CSVProductImporter`) against its
natural-language specification.

The Python code is shallowly embedded: every function below mirrors one
Python function or code block of the source, with Python `str` modelled as
`String`, Python `float` modelled as `Rat` (exact arithmetic; no property
checked here depends on binary rounding), Python `int` counters modelled as
`Nat` (all integer values flowing through the importer are non-negative),
Python `None`-able values modelled as `Option`, and raised exceptions
modelled as `Except.error`.  File reading and the SQLite-backed persistence
sink are external collaborators; they are modelled as oracle inputs (an
`Except` value for the parsed file, an explicit store-with-failure-plan
state for the database).
-/

namespace CsvImport

/-- Model of Python `str.strip()` on a list of characters: drop leading and
trailing whitespace. -/
def pyStripChars (cs : List Char) : List Char :=
  ((cs.dropWhile Char.isWhitespace).reverse.dropWhile Char.isWhitespace).reverse

/-- Model of Python `str.strip()` (default whitespace stripping). -/
def pyStrip (s : String) : String :=
  ⟨pyStripChars s.data⟩

/-- Model of Python `str.lower()` (character-wise lowering, written as a
structural map over the character list). -/
def pyLower (s : String) : String :=
  ⟨s.data.map Char.toLower⟩

/-- Whether `needle` is a leading segment of `hay` (helper for the
substring test behind Python's `in` operator). -/
def charsStartWith : List Char → List Char → Bool
  | [], _ => true
  | _ :: _, [] => false
  | a :: as, b :: bs => a == b && charsStartWith as bs

/-- Whether `needle` occurs contiguously inside `hay` (helper for Python's
`in` operator on strings). -/
def charsContain (needle : List Char) : List Char → Bool
  | [] => needle.isEmpty
  | b :: bs => charsStartWith needle (b :: bs) || charsContain needle bs

/-- Model of Python `needle in hay` for strings: substring containment. -/
def pyIn (needle hay : String) : Bool :=
  charsContain needle.data hay.data

/-- Numeric value of a list of decimal digit characters, most significant
first (the value Python's `int`/`float` assign to a plain digit run). -/
def natOfDigits (cs : List Char) : Nat :=
  cs.foldl (fun n c => 10 * n + (c.toNat - 48)) 0

/-- Model of Python `float(s)` restricted to the strings the price cleaner
can produce (digits and periods only): at most one period and at least one
digit are required, otherwise `ValueError` (here `none`). -/
def pyFloatOfDigits (cs : List Char) : Option Rat :=
  if cs.isEmpty then none
  else
    match cs.splitOn '.' with
    | [intPart] =>
        if intPart.all Char.isDigit then some (natOfDigits intPart : Rat) else none
    | [intPart, fracPart] =>
        if (intPart.isEmpty && fracPart.isEmpty)
            || !intPart.all Char.isDigit || !fracPart.all Char.isDigit then none
        else some ((natOfDigits intPart : Rat)
            + (natOfDigits fracPart : Rat) / (10 ^ fracPart.length : Rat))
    | _ => none

/-- Embedding of `CSVProductImporter.clean_price_value`, character filter
step: `re.sub(r'[^\x5cd.,]', '', value)` keeps only digits, periods and
commas (the Unicode digit class is modelled by ASCII digits). -/
def keepPriceChars (cs : List Char) : List Char :=
  cs.filter (fun c => c.isDigit || c == '.' || c == ',')

/-- Embedding of the decimal-separator normalisation inside
`clean_price_value`: with both comma and period present commas are
stripped; with only a comma it becomes a decimal point when it splits the
string into exactly two parts whose second part has at most two characters,
and is stripped otherwise. -/
def commaHandle (cs : List Char) : List Char :=
  if cs.contains ',' && cs.contains '.' then
    cs.filter (fun c => c != ',')
  else if cs.contains ',' then
    let parts := cs.splitOn ','
    if parts.length == 2 && (parts.getD 1 []).length ≤ 2 then
      cs.map (fun c => if c == ',' then '.' else c)
    else
      cs.filter (fun c => c != ',')
  else cs

/-- Embedding of `CSVProductImporter.clean_price_value`: empty or
whitespace-only input yields `0.0`; otherwise non-numeric characters are
stripped, separators normalised, and the result parsed as a float with
`0.0` as the `ValueError` fallback. -/
def clean_price_value (value : String) : Rat :=
  if pyStrip value = "" then 0
  else
    match pyFloatOfDigits (commaHandle (keepPriceChars value.data)) with
    | some r => r
    | none => 0

/-- Embedding of `CSVProductImporter.clean_stock_value`: empty or
whitespace-only input yields `0`; otherwise every non-digit character is
stripped and the remaining digit run parsed as an integer (`0` when no
digit remains). -/
def clean_stock_value (value : String) : Nat :=
  if pyStrip value = "" then 0
  else
    let cleaned := value.data.filter Char.isDigit
    if cleaned.isEmpty then 0 else natOfDigits cleaned

/-- Embedding of `CSVProductImporter.clean_barcode_value`: empty or
whitespace-only input yields `None`; a trimmed value shorter than 2
characters yields `None`; otherwise the trimmed value passes through
unmodified. -/
def clean_barcode_value (value : String) : Option String :=
  if pyStrip value = "" then none
  else
    let original := pyStrip value
    if original.length < 2 then none else some original

/-- Per-row candidate record built by the importer.  The fields mirror the
keys of the `product_data` dict built by `preview_csv_import` (the commit
path builds the same dict without `row_number` and `original_barcode`, and
with no `errors` key; those extra fields are simply unused there).  A valid
candidate keeps the default empty `errors` list; an invalid one carries the
validation messages. -/
structure ProductData where
  row_number : Nat
  name : String
  description : String
  price : Rat
  original_barcode : String
  barcode : Option String
  category : String
  stock_quantity : Nat
  cost_price : Rat
  errors : List String
deriving DecidableEq, Repr

/-- Embedding of `CSVProductImporter.validate_product_data`: the three
rules are checked independently (no short-circuit) and every violated
rule appends its message; the first component is `len(errors) == 0`.
The Python function reads only the `name` and `price` keys of its dict
argument. -/
def validate_product_data (pd : ProductData) : Bool × List String :=
  let errors : List String := []
  let errors := if pyStrip pd.name = "" then errors ++ ["Product name is required"] else errors
  let errors := if pd.price ≤ 0 then errors ++ ["Price must be greater than 0"] else errors
  let errors := if 255 < pd.name.length then errors ++ ["Product name is too long (max 255 characters)"] else errors
  (errors.isEmpty, errors)

/-- The WooCommerce indicator header strings of
`CSVProductImporter.detect_csv_format`. -/
def woo_indicators : List String :=
  ["UGS", "Nom", "Tarif régulier", "Catégories"]

/-- Embedding of `CSVProductImporter.detect_csv_format`: return
`"woocommerce"` when any indicator appears verbatim (case-sensitive list
membership) among the headers, else the `"generic"` fallback. -/
def detect_csv_format (headers : List String) : String :=
  if woo_indicators.any (fun ind => headers.contains ind) then "woocommerce"
  else "generic"

/-- Field-to-alias-list table for one dialect, mirroring one entry of
`CSVProductImporter.column_mappings`. -/
structure FieldMappings where
  name : List String
  description : List String
  price : List String
  barcode : List String
  category : List String
  stock : List String
  cost_price : List String

/-- The `'woocommerce'` entry of `CSVProductImporter.column_mappings`. -/
def woocommerce_mappings : FieldMappings :=
  ⟨["Nom", "Name", "nom", "name"],
   ["Description", "Description courte", "description"],
   ["Tarif régulier", "Regular price", "Prix", "Price", "price"],
   ["UGS", "SKU", "GTIN, UPC, EAN ou ISBN", "Barcode", "barcode"],
   ["Catégories", "Categories", "Category", "category"],
   ["Stock", "stock", "Stock quantity", "Quantité en stock"],
   ["Cost", "cout", "Cost price", "Prix de revient"]⟩

/-- The `'generic'` entry of `CSVProductImporter.column_mappings`. -/
def generic_mappings : FieldMappings :=
  ⟨["name", "nom", "product_name", "produit"],
   ["description", "desc"],
   ["price", "prix", "selling_price"],
   ["barcode", "sku", "code"],
   ["category", "categorie"],
   ["stock", "quantity", "qty"],
   ["cost", "cost_price", "prix_achat"]⟩

/-- Dictionary lookup `self.column_mappings[format]`; the detector only
ever produces the two existing keys. -/
def column_mappings (fmt : String) : FieldMappings :=
  if fmt = "woocommerce" then woocommerce_mappings else generic_mappings

/-- Header normalisation used by `find_column_index`:
`h.lower().strip()`. -/
def norm_header (h : String) : String :=
  pyStrip (pyLower h)

/-- The match test of `find_column_index`'s inner loop:
`mapping_lower == header or mapping_lower in header` where `ml` is the
normalised alias and `h` an already-normalised header. -/
def alias_matches (ml h : String) : Bool :=
  ml == h || pyIn ml h

/-- Inner loop of `find_column_index`: scan the normalised headers left to
right (index counter `i`) and return the first index whose header matches
the normalised alias `ml`. -/
def find_match_idx (ml : String) : List String → Nat → Option Nat
  | [], _ => none
  | h :: rest, i => if alias_matches ml h then some i else find_match_idx ml rest (i + 1)

/-- One alias's header scan of `CSVProductImporter.find_column_index`:
normalise the headers and the alias, then find the leftmost matching
column. -/
def headerIdx (headers : List String) (mapping : String) : Option Nat :=
  find_match_idx (pyStrip (pyLower mapping)) (headers.map norm_header) 0

/-- Embedding of `CSVProductImporter.find_column_index`: try the aliases
in priority order, returning the first alias's leftmost matching column
index, or `None` when no alias matches any header. -/
def find_column_index (headers : List String) : List String → Option Nat
  | [] => none
  | mapping :: rest =>
    match headerIdx headers mapping with
    | some i => some i
    | none => find_column_index headers rest

/-- One parsed CSV record: the ordered cell strings of one line. -/
abbrev Row := List String

/-- Resolved physical column indices of one run, built after the fatal
`name_idx is None` check (so the name index is known). -/
structure ColumnIdx where
  name_idx : Nat
  price_idx : Option Nat
  desc_idx : Option Nat
  barcode_idx : Option Nat
  category_idx : Option Nat
  stock_idx : Option Nat
  cost_idx : Option Nat
deriving DecidableEq, Repr

/-- The index list `[name_idx, price_idx, desc_idx, barcode_idx,
category_idx, stock_idx, cost_idx]` whose resolved members feed the
short-row guard's `max(...)`. -/
def ctx_idx_list (ctx : ColumnIdx) : List (Option Nat) :=
  [some ctx.name_idx, ctx.price_idx, ctx.desc_idx, ctx.barcode_idx,
   ctx.category_idx, ctx.stock_idx, ctx.cost_idx]

/-- Embedding of `max(idx for idx in [...] if idx is not None)`; the list
always contains the resolved name index, so the fold over `Nat.max` with
seed `0` equals Python's `max` of the non-empty filtered list. -/
def max_resolved_idx (idxs : List (Option Nat)) : Nat :=
  (idxs.filterMap id).foldl Nat.max 0

/-- Column-resolution prologue shared by `preview_csv_import` and
`import_csv_products` (the seven `find_column_index` calls followed by the
`name_idx is None` check); `none` models the fatal missing-name-column
outcome. -/
def resolve_columns (headers : List String) (m : FieldMappings) : Option ColumnIdx :=
  match find_column_index headers m.name with
  | none => none
  | some ni =>
    some ⟨ni, find_column_index headers m.price, find_column_index headers m.description,
      find_column_index headers m.barcode, find_column_index headers m.category,
      find_column_index headers m.stock, find_column_index headers m.cost_price⟩

/-- Row-data extraction shared by `preview_csv_import` (which also records
`row_number` and `original_barcode`) and `import_csv_products` (which
computes the same `name`/`description`/`price`/`barcode`/`category`/
`stock_quantity`/`cost_price` expressions): each optional column is read
only when resolved and in range, with the source's per-field defaults. -/
def extract_row (ctx : ColumnIdx) (row : Row) (row_num : Nat) : ProductData :=
  let cellOpt : Option Nat → Option String := fun i? =>
    match i? with
    | some i => if i < row.length then some (row.getD i "") else none
    | none => none
  { row_number := row_num,
    name := pyStrip (row.getD ctx.name_idx ""),
    description := match cellOpt ctx.desc_idx with
      | some c => pyStrip c
      | none => "",
    price := match cellOpt ctx.price_idx with
      | some c => clean_price_value c
      | none => 0,
    original_barcode := (cellOpt ctx.barcode_idx).getD "",
    barcode := match cellOpt ctx.barcode_idx with
      | some c => clean_barcode_value c
      | none => none,
    category := match cellOpt ctx.category_idx with
      | some c => pyStrip c
      | none => "Uncategorized",
    stock_quantity := match cellOpt ctx.stock_idx with
      | some c => clean_stock_value c
      | none => 0,
    cost_price := match cellOpt ctx.cost_idx with
      | some c => clean_price_value c
      | none => 0,
    errors := [] }

/-- Result triple of `preview_csv_import`. -/
structure PreviewResult where
  preview_data : List ProductData
  errors : List String
  format_detected : String
deriving DecidableEq, Repr

/-- Row loop of `preview_csv_import`: stop once `row_count` reaches the
cap, silently skip rows failing the short-row guard and rows whose
stripped name cell is empty, attach validation errors to invalid
candidates, and count only appended candidates. -/
def preview_loop (ctx : ColumnIdx) (max_preview : Nat) :
    List Row → Nat → Nat → List ProductData
  | [], _, _ => []
  | row :: rest, row_num, row_count =>
    if max_preview ≤ row_count then []
    else if row.length ≤ max_resolved_idx (ctx_idx_list ctx) then
      preview_loop ctx max_preview rest (row_num + 1) row_count
    else
      let pd := extract_row ctx row row_num
      if pd.name = "" then preview_loop ctx max_preview rest (row_num + 1) row_count
      else
        let v := validate_product_data pd
        let pd := if v.1 then pd else { pd with errors := v.2 }
        pd :: preview_loop ctx max_preview rest (row_num + 1) (row_count + 1)

/-- Body of `preview_csv_import` inside its `try` block, after the file
has been opened and parsed; `Except.error` models a raised exception (the
empty file's `next()` raises `StopIteration`, whose `str()` is empty). -/
def preview_body : List Row → Nat → Except String PreviewResult
  | [], _ => Except.error ""
  | headers :: data_rows, max_preview =>
    let format_detected := detect_csv_format headers
    let mappings := column_mappings format_detected
    match resolve_columns headers mappings with
    | none => Except.ok ⟨[], ["Could not find product name column"], format_detected⟩
    | some ctx => Except.ok ⟨preview_loop ctx max_preview data_rows 2 0, [], format_detected⟩

/-- Embedding of `CSVProductImporter.preview_csv_import`.  The `file`
argument is the outcome of opening and CSV-parsing the given path
(`Except.error` for an unreadable or malformed file).  The function's own
`except Exception` clause converts any raised exception into the
structured `(preview_data, errors, format_detected)` triple; a remaining
`Except.error` in the result would model an uncaught exception escaping
the entry point. -/
def preview_csv_import (file : Except String (List Row)) (max_preview : Nat) :
    Except String PreviewResult :=
  match file.bind (fun rows => preview_body rows max_preview) with
  | Except.ok r => Except.ok r
  | Except.error e => Except.ok ⟨[], ["Error reading CSV file: " ++ e], "generic"⟩

/-- Embedding of the `Product` dataclass (`models/product.py`), fields in
declaration order.  Prices are exact rationals and the stock quantity a
natural number (every value the importer writes is non-negative). -/
structure Product where
  id : Option Nat
  name : String
  description : String
  price : Rat
  barcode : Option String
  category : String
  stock_quantity : Nat
  is_active : Bool
  supplier : Option String
  cost_price : Rat
deriving DecidableEq, Repr

/-- One persistence-sink operation performed by the commit path. -/
inductive DbOp where
  | getByBarcode : String → DbOp
  | getAll : DbOp
  | save : Product → DbOp
deriving DecidableEq, Repr

/-- Model of the persistence sink (`DatabaseManager`) as seen through the
four operations the importer uses.  `plan` injects an exception message
for the call whose 0-based sequence number indexes a `some`; `calls`
counts the operations attempted so far and `log` records the successful
ones.  The SQLite name ordering of `get_all_products` is not modelled
(no property verified here depends on enumeration order). -/
structure DbSt where
  products : List Product
  next_id : Nat
  calls : Nat
  plan : List (Option String)
  log : List DbOp
deriving DecidableEq, Repr

/-- Embedding of `DatabaseManager.get_product_by_barcode`: first active
product with the given barcode, or `None`. -/
def db_get_by_barcode (st : DbSt) (b : String) : Except String (Option Product) × DbSt :=
  match st.plan.getD st.calls none with
  | some e => (Except.error e, { st with calls := st.calls + 1 })
  | none =>
    (Except.ok (st.products.find? (fun p => p.is_active && p.barcode == some b)),
     { st with calls := st.calls + 1, log := st.log ++ [DbOp.getByBarcode b] })

/-- Embedding of `DatabaseManager.get_all_products`: all active
products. -/
def db_get_all (st : DbSt) : Except String (List Product) × DbSt :=
  match st.plan.getD st.calls none with
  | some e => (Except.error e, { st with calls := st.calls + 1 })
  | none =>
    (Except.ok (st.products.filter (fun p => p.is_active)),
     { st with calls := st.calls + 1, log := st.log ++ [DbOp.getAll] })

/-- Embedding of `DatabaseManager.save_product`: insert assigning a fresh
id when `product.id` is `None`, else update the row with that id. -/
def db_save (st : DbSt) (p : Product) : Except String Nat × DbSt :=
  match st.plan.getD st.calls none with
  | some e => (Except.error e, { st with calls := st.calls + 1 })
  | none =>
    match p.id with
    | none =>
      let q := { p with id := some st.next_id }
      (Except.ok st.next_id,
       { st with products := st.products ++ [q],
                 next_id := st.next_id + 1,
                 calls := st.calls + 1,
                 log := st.log ++ [DbOp.save q] })
    | some i =>
      (Except.ok i,
       { st with products := st.products.map (fun q => if q.id == some i then p else q),
                 calls := st.calls + 1,
                 log := st.log ++ [DbOp.save p] })

/-- The name-fallback lookup loop of `import_csv_products`:
`prod.name.lower().strip() == name.lower().strip()`, first match wins. -/
def find_by_name (prods : List Product) (name : String) : Option Product :=
  prods.find? (fun prod => pyStrip (pyLower prod.name) == pyStrip (pyLower name))

/-- The field-overwriting block of `import_csv_products`' update branch:
every row field is copied onto the existing product except that the
barcode is assigned only when the row produced one. -/
def update_existing_fields (existing : Product) (name description : String)
    (price : Rat) (barcode : Option String) (category : String)
    (stock_quantity : Nat) (cost_price : Rat) : Product :=
  { existing with
    name := name,
    description := description,
    price := price,
    barcode := match barcode with
      | some b => some b
      | none => existing.barcode,
    category := category,
    stock_quantity := stock_quantity,
    cost_price := cost_price }

/-- Commit-loop accumulator: the two counters, the flat error list and the
persistence-sink state. -/
structure CommitSt where
  imported : Nat
  updated : Nat
  errors : List String
  db : DbSt
deriving DecidableEq, Repr

/-- The per-row `except Exception` clause of `import_csv_products`: record
the exception against the row's source line number and continue. -/
def row_failure (st : CommitSt) (db : DbSt) (row_num : Nat) (e : String) : CommitSt :=
  { st with db := db,
            errors := st.errors ++ ["Row " ++ toString row_num ++ ": Error processing - " ++ e] }

/-- Validation, lookup and persistence steps of `import_csv_products`'
row body, applied to an extracted row whose name check already passed:
invalid rows only extend the error list; valid rows look up an existing
product by barcode then by name, then update (when opted in), skip
silently, or create. -/
def process_product_data (update_existing : Bool) (st : CommitSt) (row_num : Nat)
    (pd : ProductData) : CommitSt :=
  let v := validate_product_data pd
  if !v.1 then
    { st with errors := st.errors ++ v.2.map (fun e => "Row " ++ toString row_num ++ ": " ++ e) }
  else
    let step1 : Except String (Option Product) × DbSt :=
      match pd.barcode with
      | some b => db_get_by_barcode st.db b
      | none => (Except.ok none, st.db)
    match step1 with
    | (Except.error e, db1) => row_failure st db1 row_num e
    | (Except.ok byBarcode, db1) =>
      let step2 : Except String (Option Product) × DbSt :=
        match byBarcode with
        | some p => (Except.ok (some p), db1)
        | none =>
          match db_get_all db1 with
          | (Except.error e, db2) => (Except.error e, db2)
          | (Except.ok all_products, db2) => (Except.ok (find_by_name all_products pd.name), db2)
      match step2 with
      | (Except.error e, db2) => row_failure st db2 row_num e
      | (Except.ok existing?, db2) =>
        match existing?, update_existing with
        | some existing, true =>
          let updated := update_existing_fields existing pd.name pd.description pd.price
            pd.barcode pd.category pd.stock_quantity pd.cost_price
          match db_save db2 updated with
          | (Except.error e, db3) => row_failure st db3 row_num e
          | (Except.ok _, db3) => { st with db := db3, updated := st.updated + 1 }
        | some _, false => { st with db := db2 }
        | none, _ =>
          let new_product : Product :=
            ⟨none, pd.name, pd.description, pd.price, pd.barcode, pd.category,
             pd.stock_quantity, true, none, pd.cost_price⟩
          match db_save db2 new_product with
          | (Except.error e, db3) => row_failure st db3 row_num e
          | (Except.ok _, db3) => { st with db := db3, imported := st.imported + 1 }

/-- One iteration of `import_csv_products`' row loop: the short-row guard
and the empty-name check silently skip the row; otherwise the extracted
data is processed.  Persistence exceptions are already handled inside
`process_product_data` (the row-level `try`), so each iteration returns a
plain state. -/
def process_row (ctx : ColumnIdx) (update_existing : Bool) (st : CommitSt)
    (row_num : Nat) (row : Row) : CommitSt :=
  if row.length ≤ max_resolved_idx (ctx_idx_list ctx) then st
  else
    let pd := extract_row ctx row row_num
    if pd.name = "" then st
    else process_product_data update_existing st row_num pd

/-- Row loop of `import_csv_products`, line numbers starting at 2. -/
def commit_loop (ctx : ColumnIdx) (update_existing : Bool) :
    List Row → Nat → CommitSt → CommitSt
  | [], _, st => st
  | row :: rest, row_num, st =>
    commit_loop ctx update_existing rest (row_num + 1)
      (process_row ctx update_existing st row_num row)

/-- Result of `import_csv_products`: the `(imported_count, updated_count,
errors)` triple plus the final persistence-sink state. -/
structure ImportResult where
  imported_count : Nat
  updated_count : Nat
  errors : List String
  db : DbSt
deriving DecidableEq, Repr

/-- Body of `import_csv_products` inside its outer `try` block, after the
file has been opened and parsed. -/
def import_body : List Row → Bool → DbSt → Except String ImportResult
  | [], _, _ => Except.error ""
  | headers :: data_rows, update_existing, db =>
    let format_detected := detect_csv_format headers
    let mappings := column_mappings format_detected
    match resolve_columns headers mappings with
    | none => Except.ok ⟨0, 0, ["Could not find product name column"], db⟩
    | some ctx =>
      let st := commit_loop ctx update_existing data_rows 2 ⟨0, 0, [], db⟩
      Except.ok ⟨st.imported, st.updated, st.errors, st.db⟩

/-- Embedding of `CSVProductImporter.import_csv_products`.  The `file`
argument is the outcome of opening and CSV-parsing the given path; the
outer `except Exception` clause converts any raised exception into the
structured zero-count triple, so a remaining `Except.error` in the result
would model an uncaught exception escaping the entry point. -/
def import_csv_products (file : Except String (List Row)) (update_existing : Bool)
    (db : DbSt) : Except String ImportResult :=
  match file.bind (fun rows => import_body rows update_existing db) with
  | Except.ok r => Except.ok r
  | Except.error e => Except.ok ⟨0, 0, ["Error reading CSV file: " ++ e], db⟩

/-- The end-to-end scenario file of the specification (section 8): header
`Nom,Tarif régulier,UGS,Catégories,Stock` and three data rows, the second
with a blank name cell but non-blank price, barcode, category and stock
cells. -/
def e2e_rows : List Row :=
  [["Nom", "Tarif régulier", "UGS", "Catégories", "Stock"],
   ["Café", "15.00", "CAFE001", "Boissons", "50"],
   ["", "8.00", "BAD001", "X", "10"],
   ["Thé", "abc", "THE001", "Boissons", "20"]]

/-- Concrete stored product used to witness the update-path theorem: it
has an id, a barcode and an active flag, and its name matches "cafe"
case-insensitively. -/
def witness_product : Product :=
  ⟨some 7, "Cafe", "old", 3, some "BC1", "OldCat", 1, true, none, 2⟩

/-- Concrete extracted row data used to witness the update-path theorem:
valid (non-empty name, positive price) with an absent barcode. -/
def witness_row_data : ProductData :=
  ⟨2, "cafe", "newdesc", 9, "", none, "NewCat", 4, 1, []⟩

/-- Helper lemma: the restricted float parser only produces non-negative
values (its inputs carry no sign character). -/
theorem pyFloatOfDigits_nonneg (cs : List Char) (r : Rat)
    (h : pyFloatOfDigits cs = some r) : 0 ≤ r := by
  unfold pyFloatOfDigits at h
  split at h
  · exact absurd h (by simp)
  · split at h
    · split at h
      · rw [Option.some.injEq] at h
        subst h
        exact_mod_cast Nat.zero_le _
      · exact absurd h (by simp)
    · split at h
      · exact absurd h (by simp)
      · rw [Option.some.injEq] at h
        subst h
        apply add_nonneg
        · exact_mod_cast Nat.zero_le _
        · apply div_nonneg
          · exact_mod_cast Nat.zero_le _
          · positivity
    · exact absurd h (by simp)

/-- Claim C2, counterexample: on the negative-number input `"-5.00"`,
`clean_price_value` does not pass the value through as a negative float:
the character-cleaning step strips the minus sign and the result is the
positive value `5`, so the returned value is not negative. -/
theorem clean_price_value_negative_cex :
    clean_price_value "-5.00" = 5 ∧ ¬ clean_price_value "-5.00" < 0 := by
  have h1 : clean_price_value "-5.00"
      = ((natOfDigits ['5'] : Rat) + (natOfDigits ['0', '0'] : Rat) / (10 ^ 2 : Rat)) := rfl
  have h5 : natOfDigits ['5'] = 5 := by decide
  have h0 : natOfDigits ['0', '0'] = 0 := by decide
  have h : clean_price_value "-5.00" = 5 := by
    rw [h1, h5, h0]
    norm_num
  refine ⟨h, ?_⟩
  rw [h]
  norm_num

/-- Claim C2 (amended): for every input string, `clean_price_value` never
returns a negative value — the cleaning step `re.sub` keeps only digits,
periods and commas, so a leading minus sign is stripped and negative
inputs come back as their positive magnitude (validation in section 4.4
never sees a negative price from this function). -/
theorem clean_price_value_nonneg (value : String) : 0 ≤ clean_price_value value := by
  unfold clean_price_value
  split
  · exact le_refl 0
  · split
    · next r h => exact pyFloatOfDigits_nonneg _ r h
    · exact le_refl 0

/-- Claim C7: `validate_product_data` checks its three rules independently
and reports every violated rule's message together — the name-required
message appears exactly when the trimmed name is empty, the positive-price
message exactly when the price is zero or negative, the name-too-long
message exactly when the name exceeds 255 characters, and the boolean
verdict is true exactly when the error list is empty. -/
theorem validate_product_data_rules (pd : ProductData) :
    (("Product name is required" ∈ (validate_product_data pd).2) ↔ pyStrip pd.name = "")
    ∧ (("Price must be greater than 0" ∈ (validate_product_data pd).2) ↔ pd.price ≤ 0)
    ∧ (("Product name is too long (max 255 characters)" ∈ (validate_product_data pd).2)
        ↔ 255 < pd.name.length)
    ∧ ((validate_product_data pd).1 = true ↔ (validate_product_data pd).2 = []) := by
  unfold validate_product_data
  by_cases h1 : pyStrip pd.name = "" <;> by_cases h2 : pd.price ≤ 0 <;>
    by_cases h3 : 255 < pd.name.length <;>
      simp [h1, h2, h3, String.ext_iff]

/-- Claim C8: `detect_csv_format` returns `"woocommerce"` exactly when at
least one WooCommerce indicator string occurs verbatim among the header
cells, and is total with the `"generic"` fallback as the only other
outcome. -/
theorem detect_csv_format_spec (headers : List String) :
    (detect_csv_format headers = "woocommerce" ↔ ∃ ind ∈ woo_indicators, ind ∈ headers)
    ∧ (detect_csv_format headers = "woocommerce" ∨ detect_csv_format headers = "generic") := by
  unfold detect_csv_format
  by_cases h : woo_indicators.any (fun ind => headers.contains ind)
  · rw [if_pos h]
    refine ⟨⟨fun _ => ?_, fun _ => rfl⟩, Or.inl rfl⟩
    rcases List.any_eq_true.mp h with ⟨x, hx, hc⟩
    exact ⟨x, hx, List.elem_iff.mp hc⟩
  · rw [if_neg h]
    refine ⟨⟨fun hcontra => absurd hcontra (by decide), fun hex => ?_⟩, Or.inr rfl⟩
    rcases hex with ⟨x, hx, hmem⟩
    exact absurd (List.any_eq_true.mpr ⟨x, hx, List.elem_iff.mpr hmem⟩) h

/-- Helper lemma: evaluate `clean_price_value` on a string whose cleaned
form is an integer part plus a two-character zero-valued fractional
part. -/
theorem clean_price_eval0 (v : String) (ip fp : List Char) (n : Nat)
    (h1 : clean_price_value v
      = ((natOfDigits ip : Rat) + (natOfDigits fp : Rat) / (10 ^ 2 : Rat)))
    (h2 : natOfDigits ip = n) (h3 : natOfDigits fp = 0) :
    clean_price_value v = n := by
  rw [h1, h2, h3]
  norm_num

/-- Claim C3, counterexample: in a preview run whose category column is
resolved, a row whose category cell is empty yields a candidate whose
category is the empty string, not the claimed literal "Uncategorized". -/
theorem preview_category_empty_cell_cex :
    (match preview_csv_import (Except.ok [["name", "price", "category"],
        ["Cafe", "5.00", ""]]) 10 with
     | Except.ok r => r.preview_data.map (fun pd : ProductData => pd.category)
     | Except.error _ => []) = [""]
    ∧ [""] ≠ ["Uncategorized"] := by
  have hp : clean_price_value "5.00" = 5 :=
    clean_price_eval0 _ ['5'] ['0', '0'] 5 rfl (by decide) (by decide)
  have hctx : resolve_columns ["name", "price", "category"]
      (column_mappings (detect_csv_format ["name", "price", "category"]))
      = some ⟨0, some 1, none, none, some 2, none, none⟩ := by decide
  have hpd : extract_row ⟨0, some 1, none, none, some 2, none, none⟩ ["Cafe", "5.00", ""] 2
      = ⟨2, "Cafe", "", 5, "", none, "", 0, 0, []⟩ := by
    simp +decide [extract_row, hp]
  constructor
  · simp +decide [preview_csv_import, preview_body, Except.bind, hctx, preview_loop, hpd,
      validate_product_data]
  · decide

/-- Claim C3 (amended): the "Uncategorized" default fills the category
field exactly when the category column is unresolved (or its index is
beyond the row length, which the short-row guard precludes for processed
rows); when the resolved category cell exists, its whitespace-stripped
value is used even when empty, so an empty or whitespace-only cell
produces the empty string. -/
theorem extract_row_category_default (ctx : ColumnIdx) (row : Row) (n : Nat) :
    (ctx.category_idx = none → (extract_row ctx row n).category = "Uncategorized")
    ∧ (∀ i, ctx.category_idx = some i → i < row.length →
        (extract_row ctx row n).category = pyStrip (row.getD i "")) := by
  constructor
  · intro h
    simp [extract_row, h]
  · intro i hi hlen
    simp [extract_row, hi, hlen]

/-- Witness for the amended claim C3 at concrete inputs: an unresolved
category column yields "Uncategorized", while a resolved one with a
whitespace-only cell yields the empty string. -/
theorem extract_row_category_default_witness :
    (extract_row ⟨0, none, none, none, none, none, none⟩ ["A"] 2).category = "Uncategorized"
    ∧ (extract_row ⟨0, none, none, none, some 1, none, none⟩ ["A", " "] 2).category = "" := by
  constructor
  · exact (extract_row_category_default ⟨0, none, none, none, none, none, none⟩ ["A"] 2).1 rfl
  · have h := (extract_row_category_default ⟨0, none, none, none, some 1, none, none⟩
      ["A", " "] 2).2 1 rfl (by decide)
    rw [h]
    decide

/-- Claim C1: the importer silently discards rows whose name cell is
empty even when other cells are non-blank.  On the specification's own
end-to-end file (three data rows, the second with a blank name but
non-blank price, barcode, category and stock cells), the preview yields
candidates only for source lines 2 and 4: line 3 produces no
ImportCandidate at all and no "Product name is required" error is
surfaced, contradicting the claimed one-candidate-per-row invariant. -/
theorem preview_drops_blank_name_row :
    (match preview_csv_import (Except.ok e2e_rows) 10 with
     | Except.ok r => r.preview_data.map (fun pd : ProductData => (pd.row_number, pd.errors))
     | Except.error _ => []) = [(2, []), (4, ["Price must be greater than 0"])] := by
  have hp15 : clean_price_value "15.00" = 15 :=
    clean_price_eval0 _ ['1', '5'] ['0', '0'] 15 rfl (by decide) (by decide)
  have hp8 : clean_price_value "8.00" = 8 :=
    clean_price_eval0 _ ['8'] ['0', '0'] 8 rfl (by decide) (by decide)
  have hpabc : clean_price_value "abc" = 0 := by decide
  have hctx : resolve_columns ["Nom", "Tarif régulier", "UGS", "Catégories", "Stock"]
      (column_mappings (detect_csv_format ["Nom", "Tarif régulier", "UGS", "Catégories", "Stock"]))
      = some ⟨0, some 1, none, some 2, some 3, some 4, none⟩ := by decide
  have hr1 : extract_row ⟨0, some 1, none, some 2, some 3, some 4, none⟩
      ["Café", "15.00", "CAFE001", "Boissons", "50"] 2
      = ⟨2, "Café", "", 15, "CAFE001", some "CAFE001", "Boissons", 50, 0, []⟩ := by
    simp +decide [extract_row, hp15]
  have hr2 : extract_row ⟨0, some 1, none, some 2, some 3, some 4, none⟩
      ["", "8.00", "BAD001", "X", "10"] 3
      = ⟨3, "", "", 8, "BAD001", some "BAD001", "X", 10, 0, []⟩ := by
    simp +decide [extract_row, hp8]
  have hr3 : extract_row ⟨0, some 1, none, some 2, some 3, some 4, none⟩
      ["Thé", "abc", "THE001", "Boissons", "20"] 4
      = ⟨4, "Thé", "", 0, "THE001", some "THE001", "Boissons", 20, 0, []⟩ := by
    simp +decide [extract_row, hpabc]
  simp +decide [preview_csv_import, preview_body, Except.bind, e2e_rows, hctx, preview_loop,
    hr1, hr2, hr3, validate_product_data]

/-- Helper lemma: the header scan returns the leftmost match — the found
index (relative to the running counter) holds a matching header and every
earlier position holds a non-matching one. -/
theorem find_match_idx_spec (ml : String) (l : List String) (i j : Nat)
    (h : find_match_idx ml l i = some j) :
    i ≤ j ∧ (∃ s, l.get? (j - i) = some s ∧ alias_matches ml s = true)
      ∧ ∀ k, k < j - i → ∀ s2, l.get? k = some s2 → alias_matches ml s2 = false := by
  induction l generalizing i with
  | nil => simp [find_match_idx] at h
  | cons x xs ih =>
    unfold find_match_idx at h
    by_cases hx : alias_matches ml x = true
    · rw [if_pos hx] at h
      injection h with h
      subst h
      refine ⟨le_refl _, ⟨x, by simp, hx⟩, ?_⟩
      intro k hk
      exact absurd hk (by omega)
    · rw [if_neg hx] at h
      obtain ⟨hij, ⟨s, hs, hms⟩, hmin⟩ := ih (i + 1) h
      have hji : i ≤ j := by omega
      have hsub : j - i = (j - (i + 1)) + 1 := by omega
      refine ⟨hji, ⟨s, ?_, hms⟩, ?_⟩
      · rw [hsub]
        simpa using hs
      · intro k hk s2 hs2
        match k with
        | 0 =>
          simp at hs2
          subst hs2
          exact eq_false_of_ne_true hx
        | k' + 1 =>
          have hk' : k' < j - (i + 1) := by omega
          exact hmin k' hk' s2 (by simpa using hs2)

/-- Claim C5: `find_column_index` is alias-priority-ordered.  First part:
when every alias before `a` matches no header, the result is exactly the
leftmost column matching `a` (regardless of where columns matching later
aliases sit).  Second part: when no alias matches any header the result is
absent.  Third part: within one alias the returned column is the leftmost
match — the found position matches and all earlier ones do not. -/
theorem find_column_index_priority (headers : List String) :
    (∀ (pre : List String) (a : String) (post : List String) (j : Nat),
        (∀ b ∈ pre, headerIdx headers b = none) →
        headerIdx headers a = some j →
        find_column_index headers (pre ++ a :: post) = some j)
    ∧ (∀ aliases : List String, (∀ a ∈ aliases, headerIdx headers a = none) →
        find_column_index headers aliases = none)
    ∧ (∀ (a : String) (j : Nat), headerIdx headers a = some j →
        (∃ s, (headers.map norm_header).get? j = some s
            ∧ alias_matches (pyStrip (pyLower a)) s = true)
          ∧ ∀ k, k < j → ∀ s2, (headers.map norm_header).get? k = some s2 →
              alias_matches (pyStrip (pyLower a)) s2 = false) := by
  refine ⟨?_, ?_, ?_⟩
  · intro pre a post j hpre ha
    induction pre with
    | nil => simp [find_column_index, ha]
    | cons b rest ih =>
      have hb : headerIdx headers b = none := hpre b (by simp)
      have hrest : ∀ c ∈ rest, headerIdx headers c = none :=
        fun c hc => hpre c (by simp [hc])
      simpa [find_column_index, hb] using ih hrest
  · intro aliases h
    induction aliases with
    | nil => rfl
    | cons b rest ih =>
      have hb : headerIdx headers b = none := h b (by simp)
      have hrest : ∀ c ∈ rest, headerIdx headers c = none :=
        fun c hc => h c (by simp [hc])
      simpa [find_column_index, hb] using ih hrest
  · intro a j h
    obtain ⟨_, ⟨s, hs, hms⟩, hmin⟩ := find_match_idx_spec _ _ 0 j h
    exact ⟨⟨s, by simpa using hs, hms⟩, fun k hk s2 hs2 => hmin k (by omega) s2 hs2⟩

/-- Witness for claim C5 at a concrete input: with headers
`["Price", "Nom"]` and alias list `["nom", "price"]`, the resolver picks
column 1 (matching the first alias "nom") although the later alias
"price" matches the earlier column 0. -/
theorem find_column_index_priority_witness :
    find_column_index ["Price", "Nom"] ["nom", "price"] = some 1 :=
  (find_column_index_priority ["Price", "Nom"]).1 [] "nom" ["price"] 1
    (by simp) (by decide)

/-- Helper lemma: the preview row loop appends at most `n - row_count`
candidates before the cap check breaks the loop. -/
theorem preview_loop_length_le (ctx : ColumnIdx) (n : Nat) (rows : List Row) :
    ∀ row_num row_count, (preview_loop ctx n rows row_num row_count).length ≤ n - row_count := by
  induction rows with
  | nil =>
    intro rn rc
    simp [preview_loop]
  | cons row rest ih =>
    intro rn rc
    simp only [preview_loop]
    split
    · simp
    · split
      · exact ih _ _
      · split
        · exact ih _ _
        · simp only [List.length_cons]
          have h2 := ih (rn + 1) (rc + 1)
          omega

/-- Claim C9: for every input file and caller-supplied cap, the candidate
list returned by `preview_csv_import` holds at most `max_preview`
elements, however many rows the file contains. -/
theorem preview_respects_cap (file : Except String (List Row)) (n : Nat) (r : PreviewResult)
    (h : preview_csv_import file n = Except.ok r) :
    r.preview_data.length ≤ n := by
  unfold preview_csv_import at h
  cases hbind : file.bind (fun rows => preview_body rows n) with
  | error e =>
    rw [hbind] at h
    injection h with h
    subst h
    simp
  | ok pr =>
    rw [hbind] at h
    injection h with h
    subst h
    cases file with
    | error e => simp [Except.bind] at hbind
    | ok rows =>
      simp only [Except.bind] at hbind
      cases rows with
      | nil => simp [preview_body] at hbind
      | cons headers data_rows =>
        simp only [preview_body] at hbind
        cases hres : resolve_columns headers (column_mappings (detect_csv_format headers)) with
        | none =>
          rw [hres] at hbind
          injection hbind with hbind
          subst hbind
          simp
        | some ctx =>
          rw [hres] at hbind
          injection hbind with hbind
          subst hbind
          simpa using preview_loop_length_le ctx n data_rows 2 0

/-- Witness for claim C9 at a concrete input: an unreadable file yields
zero candidates, within the cap 5. -/
theorem preview_respects_cap_witness :
    (⟨[], ["Error reading CSV file: boom"], "generic"⟩ : PreviewResult).preview_data.length ≤ 5 :=
  preview_respects_cap (Except.error "boom") 5 _ rfl

/-- Claim C6: when the name field resolves to no header column,
`import_csv_products` aborts before any row processing: it returns zero
imported, zero updated and the descriptive error string, and the
persistence sink is returned exactly as it was handed in — no lookup,
create or update call was made (same product list, call counter and
operation log). -/
theorem import_aborts_when_name_unresolved (headers : List String) (data_rows : List Row)
    (flag : Bool) (db : DbSt)
    (h : find_column_index headers (column_mappings (detect_csv_format headers)).name = none) :
    import_csv_products (Except.ok (headers :: data_rows)) flag db
      = Except.ok ⟨0, 0, ["Could not find product name column"], db⟩ := by
  unfold import_csv_products import_body resolve_columns
  simp [Except.bind, h]

/-- Witness for claim C6 at a concrete input: a header row `["foo"]`
matches no name alias, so the commit aborts with zero counts and an
untouched database state. -/
theorem import_aborts_when_name_unresolved_witness :
    import_csv_products (Except.ok [["foo"]]) false ⟨[], 1, 0, [], []⟩
      = Except.ok ⟨0, 0, ["Could not find product name column"], ⟨[], 1, 0, [], []⟩⟩ :=
  import_aborts_when_name_unresolved ["foo"] [] false ⟨[], 1, 0, [], []⟩ (by decide)

/-- Claim C4: neither entry point lets an exception escape — for every
file outcome (including read failures) and database state both
`preview_csv_import` and `import_csv_products` return a structured
`Except.ok` result, and a file-level failure surfaces as the
"Error reading CSV file" entry of the error list with empty candidate
lists and zero counts. -/
theorem import_entry_points_no_uncaught (file : Except String (List Row)) (n : Nat)
    (flag : Bool) (db : DbSt) :
    ((∃ r, preview_csv_import file n = Except.ok r)
      ∧ (∃ r, import_csv_products file flag db = Except.ok r))
    ∧ ∀ e, file = Except.error e →
        preview_csv_import file n
          = Except.ok ⟨[], ["Error reading CSV file: " ++ e], "generic"⟩
        ∧ import_csv_products file flag db
          = Except.ok ⟨0, 0, ["Error reading CSV file: " ++ e], db⟩ := by
  refine ⟨⟨?_, ?_⟩, ?_⟩
  · cases h : file.bind (fun rows => preview_body rows n) with
    | ok r =>
      refine ⟨r, ?_⟩
      unfold preview_csv_import
      rw [h]
    | error e =>
      refine ⟨⟨[], ["Error reading CSV file: " ++ e], "generic"⟩, ?_⟩
      unfold preview_csv_import
      rw [h]
  · cases h : file.bind (fun rows => import_body rows flag db) with
    | ok r =>
      refine ⟨r, ?_⟩
      unfold import_csv_products
      rw [h]
    | error e =>
      refine ⟨⟨0, 0, ["Error reading CSV file: " ++ e], db⟩, ?_⟩
      unfold import_csv_products
      rw [h]
  · intro e he
    subst he
    exact ⟨rfl, rfl⟩

/-- Witness for claim C4 at a concrete input: a failing file read is
returned as the structured triple by both entry points. -/
theorem import_entry_points_no_uncaught_witness :
    preview_csv_import (Except.error "io down") 10
      = Except.ok ⟨[], ["Error reading CSV file: io down"], "generic"⟩
    ∧ import_csv_products (Except.error "io down") true ⟨[], 1, 0, [], []⟩
      = Except.ok ⟨0, 0, ["Error reading CSV file: io down"], ⟨[], 1, 0, [], []⟩⟩ :=
  (import_entry_points_no_uncaught (Except.error "io down") 10 true
    ⟨[], 1, 0, [], []⟩).2 "io down" rfl

/-- Claim C10: in the commit path with `update_existing` enabled, when a
valid row's barcode is absent and the row matches the single stored
(active, id-bearing) product by case-insensitive name, the saved product
keeps the existing barcode while name, description, price, category,
stock quantity and cost price are overwritten with the row's values; the
updated counter increments and the imported counter and error list are
untouched. -/
theorem commit_update_preserves_absent_barcode (st : CommitSt) (row_num : Nat)
    (pd : ProductData) (p : Product) (pid : Nat)
    (hdb : st.db.products = [p]) (hplan : st.db.plan = [])
    (hactive : p.is_active = true) (hid : p.id = some pid)
    (hvalid : (validate_product_data pd).1 = true)
    (hbarcode : pd.barcode = none)
    (hname : pyStrip (pyLower p.name) = pyStrip (pyLower pd.name)) :
    ((process_product_data true st row_num pd).db.products
        = [update_existing_fields p pd.name pd.description pd.price pd.barcode
            pd.category pd.stock_quantity pd.cost_price])
    ∧ (update_existing_fields p pd.name pd.description pd.price pd.barcode
        pd.category pd.stock_quantity pd.cost_price).barcode = p.barcode
    ∧ (update_existing_fields p pd.name pd.description pd.price pd.barcode
        pd.category pd.stock_quantity pd.cost_price).name = pd.name
    ∧ (update_existing_fields p pd.name pd.description pd.price pd.barcode
        pd.category pd.stock_quantity pd.cost_price).description = pd.description
    ∧ (update_existing_fields p pd.name pd.description pd.price pd.barcode
        pd.category pd.stock_quantity pd.cost_price).price = pd.price
    ∧ (update_existing_fields p pd.name pd.description pd.price pd.barcode
        pd.category pd.stock_quantity pd.cost_price).category = pd.category
    ∧ (update_existing_fields p pd.name pd.description pd.price pd.barcode
        pd.category pd.stock_quantity pd.cost_price).stock_quantity = pd.stock_quantity
    ∧ (update_existing_fields p pd.name pd.description pd.price pd.barcode
        pd.category pd.stock_quantity pd.cost_price).cost_price = pd.cost_price
    ∧ (process_product_data true st row_num pd).updated = st.updated + 1
    ∧ (process_product_data true st row_num pd).imported = st.imported
    ∧ (process_product_data true st row_num pd).errors = st.errors := by
  have hstep : process_product_data true st row_num pd
      = { st with
          db := { st.db with
                  products := [update_existing_fields p pd.name pd.description pd.price
                    pd.barcode pd.category pd.stock_quantity pd.cost_price],
                  calls := st.db.calls + 2,
                  log := st.db.log ++ [DbOp.getAll]
                    ++ [DbOp.save (update_existing_fields p pd.name pd.description pd.price
                          pd.barcode pd.category pd.stock_quantity pd.cost_price)] },
          updated := st.updated + 1 } := by
    unfold process_product_data
    simp only [hvalid, hbarcode, Bool.not_true]
    unfold db_get_all db_save find_by_name
    simp [hplan, hdb, hactive, hname, hid, update_existing_fields]
  rw [hstep]
  simp [update_existing_fields, hbarcode]

/-- Witness for claim C10 at concrete inputs: updating the stored product
`witness_product` from the barcode-less row `witness_row_data` keeps
barcode "BC1" and overwrites the remaining fields. -/
theorem commit_update_preserves_absent_barcode_witness :
    ((process_product_data true ⟨0, 0, [], ⟨[witness_product], 5, 0, [], []⟩⟩ 2
        witness_row_data).db.products
      = [update_existing_fields witness_product witness_row_data.name
          witness_row_data.description witness_row_data.price witness_row_data.barcode
          witness_row_data.category witness_row_data.stock_quantity
          witness_row_data.cost_price])
    ∧ (update_existing_fields witness_product witness_row_data.name
        witness_row_data.description witness_row_data.price witness_row_data.barcode
        witness_row_data.category witness_row_data.stock_quantity
        witness_row_data.cost_price).barcode = witness_product.barcode :=
  ⟨(commit_update_preserves_absent_barcode ⟨0, 0, [], ⟨[witness_product], 5, 0, [], []⟩⟩ 2
      witness_row_data witness_product 7 rfl rfl rfl rfl (by decide) rfl (by decide)).1,
   (commit_update_preserves_absent_barcode ⟨0, 0, [], ⟨[witness_product], 5, 0, [], []⟩⟩ 2
      witness_row_data witness_product 7 rfl rfl rfl rfl (by decide) rfl (by decide)).2.1⟩

end CsvImport
